import Mathlib

/-!
Verification of the Coastal Threat Alert System core
(`backend/anomaly_model.py`, alert assembly in `backend/main.py` and
`simulation/simulate.py`).

Python floats are embedded as real numbers `ℝ`; dictionaries of metric
values as association lists `List (String × ℝ)` with lookup defaulting
to `0` (mirroring `dict.get(key, 0.0)`); `collections.deque(maxlen=w)`
as a list with eviction of the oldest element on append.
-/

/-- The fixed ordered list of the 7 recognized metrics (`METRIC_ORDER`
in `backend/anomaly_model.py`). -/
def METRIC_ORDER : List String :=
  ["tide_level_m", "wave_height_m", "wind_speed_ms", "rain_mm",
   "turbidity_NTU", "chlorophyll_mg_m3", "oil_slick_score"]

/-- Dictionary lookup with default `0.0`, mirroring the Python call
`d.get(key, 0.0)` on a metrics / z-score mapping. -/
def getD (l : List (String × ℝ)) (k : String) : ℝ :=
  match l.find? (fun p => p.1 == k) with
  | some p => p.2
  | none => 0

/-- Append `x` to a `deque(maxlen := w)`: the value goes to the right
end and, if the capacity is exceeded, the oldest (leftmost) entries are
evicted. -/
def pushWin (w : ℕ) (buf : List ℝ) (x : ℝ) : List ℝ :=
  if w < (buf ++ [x]).length then (buf ++ [x]).drop ((buf ++ [x]).length - w)
  else buf ++ [x]

/-- Mean of a window, the numpy call `arr.mean()`. -/
noncomputable def sampleMean (l : List ℝ) : ℝ :=
  l.sum / (l.length : ℝ)

/-- Sample standard deviation with Bessel correction, the numpy call
`arr.std(ddof=1)` = sqrt of (sum of squared deviations) / (n − 1). -/
noncomputable def sampleStd (l : List ℝ) : ℝ :=
  Real.sqrt ((l.map (fun x => (x - sampleMean l) ^ 2)).sum / ((l.length : ℝ) - 1))

/-- State of `RollingZScoreDetector`: the configured window capacity,
threshold, and the per-station per-metric buffers (the
`defaultdict(lambda: defaultdict(lambda: deque(maxlen=window)))`,
whose missing entries behave as empty buffers). -/
structure RollingZScoreDetector where
  window : ℕ
  z_thresh : ℝ
  buffers : String → String → List ℝ

/-- Fresh detector `RollingZScoreDetector(window, z_thresh)`: all
buffers empty. -/
def initDetector (w : ℕ) (t : ℝ) : RollingZScoreDetector :=
  { window := w, z_thresh := t, buffers := fun _ _ => [] }

/-- Z-score emitted for one metric by `RollingZScoreDetector.update`,
given the buffer `buf'` AFTER the current value was appended: `0.0`
during warmup (fewer than 10 values), else `(x − mean) / sd` where a
numerically zero standard deviation is replaced by `1e-6`
(`sd = arr.std(ddof=1) or 1e-6`). -/
noncomputable def zscoreOf (buf' : List ℝ) (x : ℝ) : ℝ :=
  if buf'.length < 10 then 0
  else
    let sd := sampleStd buf'
    (x - sampleMean buf') / (if sd = 0 then 1e-6 else sd)

/-- Update step `RollingZScoreDetector.update(station_id, metrics)`: for each
recognized metric append `metrics.get(m, 0.0)` to that station/metric
buffer and emit its z-score; returns the updated detector state and the
z-score mapping (in `METRIC_ORDER` order). -/
noncomputable def RollingZScoreDetector.update (d : RollingZScoreDetector)
    (station : String) (metrics : List (String × ℝ)) :
    RollingZScoreDetector × List (String × ℝ) :=
  ({ d with
      buffers := fun st m =>
        if st = station ∧ m ∈ METRIC_ORDER then
          pushWin d.window (d.buffers st m) (getD metrics m)
        else d.buffers st m },
   METRIC_ORDER.map (fun m =>
     (m, zscoreOf (pushWin d.window (d.buffers station m) (getD metrics m))
           (getD metrics m))))

/-- Fold a sequence of `update` calls for one station over the detector
state. -/
noncomputable def runUpdates (d : RollingZScoreDetector) (station : String)
    (ms : List (List (String × ℝ))) : RollingZScoreDetector :=
  ms.foldl (fun s metrics => (s.update station metrics).1) d

/- Basic window lemmas. -/

theorem pushWin_length (w : ℕ) (buf : List ℝ) (x : ℝ) :
    (pushWin w buf x).length = min (buf.length + 1) w := by
  unfold pushWin
  split
  · rename_i h
    simp only [List.length_drop, List.length_append, List.length_singleton] at *
    omega
  · rename_i h
    simp only [List.length_append, List.length_singleton] at *
    omega

theorem update_window (d : RollingZScoreDetector) (st : String)
    (mets : List (String × ℝ)) : (d.update st mets).1.window = d.window := rfl

theorem update_buffers_self (d : RollingZScoreDetector) (st m : String)
    (hm : m ∈ METRIC_ORDER) (mets : List (String × ℝ)) :
    (d.update st mets).1.buffers st m
      = pushWin d.window (d.buffers st m) (getD mets m) := by
  simp [RollingZScoreDetector.update, hm]

theorem runUpdates_cons (d : RollingZScoreDetector) (st : String)
    (mets : List (String × ℝ)) (ms : List (List (String × ℝ))) :
    runUpdates d st (mets :: ms) = runUpdates ((d.update st mets).1) st ms := rfl

theorem runUpdates_window (d : RollingZScoreDetector) (st : String)
    (ms : List (List (String × ℝ))) : (runUpdates d st ms).window = d.window := by
  induction ms generalizing d with
  | nil => rfl
  | cons x xs ih => rw [runUpdates_cons, ih]; rfl

theorem runUpdates_buffers_length_general (st m : String) (hm : m ∈ METRIC_ORDER)
    (ms : List (List (String × ℝ))) (d : RollingZScoreDetector)
    (hL : (d.buffers st m).length ≤ d.window) :
    ((runUpdates d st ms).buffers st m).length
      = min ((d.buffers st m).length + ms.length) d.window := by
  induction ms generalizing d with
  | nil =>
    simp only [runUpdates, List.foldl_nil, List.length_nil, Nat.add_zero]
    omega
  | cons x xs ih =>
    rw [runUpdates_cons]
    have hstep := update_buffers_self d st m hm x
    have hlen : ((d.update st x).1.buffers st m).length
        = min ((d.buffers st m).length + 1) d.window := by
      rw [hstep]; exact pushWin_length _ _ _
    have hw : (d.update st x).1.window = d.window := rfl
    have := ih ((d.update st x).1) (by rw [hlen, hw]; omega)
    rw [this, hlen, hw]
    simp only [List.length_cons]
    omega

theorem runUpdates_buffers_length (w : ℕ) (t : ℝ) (st m : String)
    (hm : m ∈ METRIC_ORDER) (ms : List (List (String × ℝ))) :
    ((runUpdates (initDetector w t) st ms).buffers st m).length = min ms.length w := by
  have := runUpdates_buffers_length_general st m hm ms (initDetector w t) (by simp [initDetector])
  simpa [initDetector] using this

/-- C5: For every station and metric and every sequence of `update`
calls, the length of the rolling window never exceeds the configured
capacity `window`, is monotonically non-decreasing, and equals exactly
`window` after at least `window` updates of that (station, metric)
pair. -/
theorem rolling_window_invariant (w : ℕ) (t : ℝ) (st m : String)
    (hm : m ∈ METRIC_ORDER) (ms : List (List (String × ℝ))) :
    ((runUpdates (initDetector w t) st ms).buffers st m).length = min ms.length w ∧
    ((runUpdates (initDetector w t) st ms).buffers st m).length ≤ w ∧
    (∀ mets, ((runUpdates (initDetector w t) st ms).buffers st m).length ≤
      ((runUpdates (initDetector w t) st (ms ++ [mets])).buffers st m).length) ∧
    (w ≤ ms.length →
      ((runUpdates (initDetector w t) st ms).buffers st m).length = w) := by
  have hbase := runUpdates_buffers_length w t st m hm ms
  refine ⟨hbase, by omega, fun mets => ?_, fun hw => by omega⟩
  have hnext := runUpdates_buffers_length w t st m hm (ms ++ [mets])
  rw [hbase, hnext, List.length_append, List.length_singleton]
  omega

/-- Witness for C5 at a concrete instance: capacity 2, three updates
for station "S" and metric "tide_level_m" leave a window of length
exactly 2. -/
theorem rolling_window_invariant_witness :
    ((runUpdates (initDetector 2 3) "S" [[], [], []]).buffers "S" "tide_level_m").length
      = 2 := by
  have h := (rolling_window_invariant 2 3 "S" "tide_level_m"
    (by simp [METRIC_ORDER]) [[], [], []]).2.2.2 (by simp)
  exact h

theorem getD_map_metric (f : String → ℝ) (m : String) (hm : m ∈ METRIC_ORDER) :
    getD (METRIC_ORDER.map (fun k => (k, f k))) m = f m := by
  fin_cases hm <;> rfl

theorem update_zscore_self (d : RollingZScoreDetector) (st m : String)
    (hm : m ∈ METRIC_ORDER) (mets : List (String × ℝ)) :
    getD (d.update st mets).2 m
      = zscoreOf (pushWin d.window (d.buffers st m) (getD mets m)) (getD mets m) := by
  exact getD_map_metric
    (fun k => zscoreOf (pushWin d.window (d.buffers st k) (getD mets k)) (getD mets k))
    m hm

/-- C4: For every station and recognized metric, each of the first 9
calls to `update` for that pair (at most 8 prior calls) emits z-score
exactly `0.0` regardless of the values supplied; and whenever the
window including the just-appended value holds at least 10 values, the
z-score is computed from the window statistics
`(x − mean(buf)) / (std(buf) or 1e-6)`. -/
theorem warmup_zscore_zero (w : ℕ) (t : ℝ) (st m : String)
    (hm : m ∈ METRIC_ORDER) (ms : List (List (String × ℝ)))
    (hfirst : ms.length ≤ 8) (mets : List (String × ℝ)) :
    getD ((runUpdates (initDetector w t) st ms).update st mets).2 m = 0 ∧
    (∀ d : RollingZScoreDetector,
      10 ≤ (pushWin d.window (d.buffers st m) (getD mets m)).length →
      getD (d.update st mets).2 m
        = (getD mets m
            - sampleMean (pushWin d.window (d.buffers st m) (getD mets m)))
          / (if sampleStd (pushWin d.window (d.buffers st m) (getD mets m)) = 0
             then 1e-6
             else sampleStd (pushWin d.window (d.buffers st m) (getD mets m)))) := by
  constructor
  · rw [update_zscore_self _ _ _ hm]
    have hlen : ((runUpdates (initDetector w t) st ms).buffers st m).length
        = min ms.length w := runUpdates_buffers_length w t st m hm ms
    have hwin : (runUpdates (initDetector w t) st ms).window = w :=
      runUpdates_window _ _ _
    rw [zscoreOf, if_pos]
    rw [pushWin_length, hlen]
    omega
  · intro d hlen
    rw [update_zscore_self _ _ _ hm, zscoreOf, if_neg (by omega)]

/-- Witness for C4: the very first update (0 prior calls) with value 5
for "tide_level_m" emits z-score 0 for it, and on windows of length
at least 10 the statistics formula applies. -/
theorem warmup_zscore_zero_witness :
    getD ((runUpdates (initDetector 60 3) "S" []).update "S"
      [("tide_level_m", 5)]).2 "tide_level_m" = 0 :=
  (warmup_zscore_zero 60 3 "S" "tide_level_m" (by simp [METRIC_ORDER]) []
    (by simp) [("tide_level_m", 5)]).1

theorem pushWin_replicate (w j : ℕ) (c : ℝ) :
    pushWin w (List.replicate j c) c = List.replicate (min (j + 1) w) c := by
  unfold pushWin
  rw [← List.replicate_succ']
  simp only [List.length_replicate]
  split
  · rename_i h
    rw [List.drop_replicate]
    congr 1
    omega
  · rename_i h
    congr 1
    omega

theorem sampleMean_replicate (K : ℕ) (hK : K ≠ 0) (c : ℝ) :
    sampleMean (List.replicate K c) = c := by
  unfold sampleMean
  rw [List.sum_replicate, List.length_replicate, nsmul_eq_mul]
  exact mul_div_cancel_left₀ c (Nat.cast_ne_zero.mpr hK)

theorem sampleStd_replicate (K : ℕ) (hK : K ≠ 0) (c : ℝ) :
    sampleStd (List.replicate K c) = 0 := by
  unfold sampleStd
  rw [sampleMean_replicate K hK, List.map_replicate]
  simp

theorem runUpdates_replicate_buffer_general (st m : String) (hm : m ∈ METRIC_ORDER)
    (mets : List (String × ℝ)) (k : ℕ) :
    ∀ (d : RollingZScoreDetector) (j : ℕ), j ≤ d.window →
      d.buffers st m = List.replicate j (getD mets m) →
      (runUpdates d st (List.replicate k mets)).buffers st m
        = List.replicate (min (j + k) d.window) (getD mets m) := by
  induction k with
  | zero =>
    intro d j hj hb
    simp only [List.replicate_zero, runUpdates, List.foldl_nil]
    rw [hb]
    congr 1
    omega
  | succ k ih =>
    intro d j hj hb
    rw [List.replicate_succ, runUpdates_cons]
    have hb' : (d.update st mets).1.buffers st m
        = List.replicate (min (j + 1) d.window) (getD mets m) := by
      rw [update_buffers_self d st m hm mets, hb, pushWin_replicate]
    have hw' : (d.update st mets).1.window = d.window := rfl
    have hres := ih ((d.update st mets).1) (min (j + 1) d.window)
      (by rw [hw']; omega) (by rw [hb'])
    rw [hres, hw']
    congr 1
    omega

theorem runUpdates_replicate_buffer (w : ℕ) (t : ℝ) (st m : String)
    (hm : m ∈ METRIC_ORDER) (mets : List (String × ℝ)) (k : ℕ) :
    (runUpdates (initDetector w t) st (List.replicate k mets)).buffers st m
      = List.replicate (min k w) (getD mets m) := by
  have := runUpdates_replicate_buffer_general st m hm mets k (initDetector w t) 0
    (by simp [initDetector]) (by simp [initDetector])
  simpa [initDetector] using this

/-- C6: for a (station, metric) pair fed the same metrics mapping on
every update across at least 10 updates (constant window), the nth
call emits z-score exactly 0; the sample standard deviation of the
resulting window is 0 (so the epsilon floor 1e-6 is substituted) and
the numerator (value − mean) is 0. -/
theorem constant_updates_zscore_zero (st m : String) (hm : m ∈ METRIC_ORDER)
    (mets : List (String × ℝ)) (n : ℕ) (hn : 10 ≤ n) :
    getD ((runUpdates (initDetector 60 3) st
        (List.replicate (n - 1) mets)).update st mets).2 m = 0 ∧
    sampleStd (((runUpdates (initDetector 60 3) st
        (List.replicate (n - 1) mets)).update st mets).1.buffers st m) = 0 ∧
    getD mets m - sampleMean (((runUpdates (initDetector 60 3) st
        (List.replicate (n - 1) mets)).update st mets).1.buffers st m) = 0 := by
  have hbuf := runUpdates_replicate_buffer 60 3 st m hm mets (n - 1)
  have hwin : (runUpdates (initDetector 60 3) st
      (List.replicate (n - 1) mets)).window = 60 := runUpdates_window _ _ _
  have hafter : ((runUpdates (initDetector 60 3) st
      (List.replicate (n - 1) mets)).update st mets).1.buffers st m
      = List.replicate (min (min (n - 1) 60 + 1) 60) (getD mets m) := by
    rw [update_buffers_self _ _ _ hm, hwin, hbuf, pushWin_replicate]
  have hKne : min (min (n - 1) 60 + 1) 60 ≠ 0 := by omega
  have hstd : sampleStd (List.replicate (min (min (n - 1) 60 + 1) 60)
      (getD mets m)) = 0 := sampleStd_replicate _ hKne _
  have hmean : sampleMean (List.replicate (min (min (n - 1) 60 + 1) 60)
      (getD mets m)) = getD mets m := sampleMean_replicate _ hKne _
  refine ⟨?_, by rw [hafter, hstd], by rw [hafter, hmean, sub_self]⟩
  rw [update_zscore_self _ _ _ hm, hwin, hbuf, pushWin_replicate]
  unfold zscoreOf
  rw [if_neg (by simp only [List.length_replicate]; omega)]
  simp only [hmean, hstd, sub_self, zero_div]

/-- Witness for C6: 10 constant updates of value 2 for "rain_mm" at
station "S" emit z-score 0 on the 10th call. -/
theorem constant_updates_zscore_zero_witness :
    getD ((runUpdates (initDetector 60 3) "S"
        (List.replicate (10 - 1) [("rain_mm", 2)])).update "S"
        [("rain_mm", 2)]).2 "rain_mm" = 0 :=
  (constant_updates_zscore_zero "S" "rain_mm" (by simp [METRIC_ORDER])
    [("rain_mm", 2)] 10 (by norm_num)).1

/-- Threat labeler `label_threat(metrics, z, if_score)` from `backend/anomaly_model.py`:
starts from an empty list and appends, in this fixed order,
"possible_flooding", "possible_algal_bloom", "possible_oil_spill" when
their rules fire, and finally "generic_anomaly" when
`if_score > 0.75 and not labels`. -/
noncomputable def label_threat (metrics z : List (String × ℝ)) (if_score : ℝ) :
    List String :=
  let labels : List String := []
  let labels := if |getD z "tide_level_m"| > 2.5 ∧ |getD z "wave_height_m"| > 2.5
      ∧ |getD z "wind_speed_ms"| > 2.0 then labels ++ ["possible_flooding"]
    else labels
  let labels := if |getD z "chlorophyll_mg_m3"| > 3.0 ∧ |getD z "turbidity_NTU"| > 2.0
      then labels ++ ["possible_algal_bloom"] else labels
  let labels := if getD metrics "oil_slick_score" > 0.4 ∨ |getD z "oil_slick_score"| > 3.5
      then labels ++ ["possible_oil_spill"] else labels
  let labels := if if_score > 0.75 ∧ labels = [] then labels ++ ["generic_anomaly"]
    else labels
  labels

/-- Label list as worded by the specification (C1): the concatenation,
in rule order, of the label of each rule that fires, where the
generic-anomaly rule fires iff no earlier rule fired and
`if_score > 0.75`. -/
noncomputable def labelSpec (metrics z : List (String × ℝ)) (if_score : ℝ) :
    List String :=
  (if |getD z "tide_level_m"| > 2.5 ∧ |getD z "wave_height_m"| > 2.5
      ∧ |getD z "wind_speed_ms"| > 2.0 then ["possible_flooding"] else []) ++
  (if |getD z "chlorophyll_mg_m3"| > 3.0 ∧ |getD z "turbidity_NTU"| > 2.0
      then ["possible_algal_bloom"] else []) ++
  (if getD metrics "oil_slick_score" > 0.4 ∨ |getD z "oil_slick_score"| > 3.5
      then ["possible_oil_spill"] else []) ++
  (if (¬ (|getD z "tide_level_m"| > 2.5 ∧ |getD z "wave_height_m"| > 2.5
        ∧ |getD z "wind_speed_ms"| > 2.0)
      ∧ ¬ (|getD z "chlorophyll_mg_m3"| > 3.0 ∧ |getD z "turbidity_NTU"| > 2.0)
      ∧ ¬ (getD metrics "oil_slick_score" > 0.4 ∨ |getD z "oil_slick_score"| > 3.5)
      ∧ if_score > 0.75) then ["generic_anomaly"] else [])

theorem label_threat_eq_labelSpec (metrics z : List (String × ℝ)) (if_score : ℝ) :
    label_threat metrics z if_score = labelSpec metrics z if_score := by
  simp only [label_threat, labelSpec]
  split_ifs <;> simp_all

theorem labeler_scenario_flooding :
    label_threat [("oil_slick_score", 0.1)]
      [("tide_level_m", 3.0), ("wave_height_m", 3.0), ("wind_speed_ms", 2.5)] 0.2
      = ["possible_flooding"] := by
  have h1 : getD [("tide_level_m", 3.0), ("wave_height_m", 3.0),
      ("wind_speed_ms", 2.5)] "tide_level_m" = 3.0 := rfl
  have h2 : getD [("tide_level_m", 3.0), ("wave_height_m", 3.0),
      ("wind_speed_ms", 2.5)] "wave_height_m" = 3.0 := rfl
  have h3 : getD [("tide_level_m", 3.0), ("wave_height_m", 3.0),
      ("wind_speed_ms", 2.5)] "wind_speed_ms" = 2.5 := rfl
  have h4 : getD [("tide_level_m", 3.0), ("wave_height_m", 3.0),
      ("wind_speed_ms", 2.5)] "chlorophyll_mg_m3" = 0 := rfl
  have h5 : getD [("tide_level_m", 3.0), ("wave_height_m", 3.0),
      ("wind_speed_ms", 2.5)] "turbidity_NTU" = 0 := rfl
  have h6 : getD [("tide_level_m", 3.0), ("wave_height_m", 3.0),
      ("wind_speed_ms", 2.5)] "oil_slick_score" = 0 := rfl
  have h7 : getD [("oil_slick_score", 0.1)] "oil_slick_score" = 0.1 := rfl
  rw [label_threat, h1, h2, h3, h4, h5, h6, h7]
  rw [abs_of_nonneg (by norm_num : (0:ℝ) ≤ 3.0),
      abs_of_nonneg (by norm_num : (0:ℝ) ≤ 2.5),
      abs_of_nonneg (by norm_num : (0:ℝ) ≤ (0:ℝ))]
  norm_num

/-- C1: for every metrics mapping, z-score mapping and ensemble score
(missing keys treated as 0 by `getD`), `label_threat` returns exactly
the list built by evaluating the four rules in their fixed order and
appending the label of each rule that fires, where "generic_anomaly"
fires iff no earlier rule fired and `if_score > 0.75`; moreover the
concrete scenario tide z=3.0, wave z=3.0, wind z=2.5, other z missing,
oil_slick_score=0.1, if_score=0.2 yields exactly
["possible_flooding"]. -/
theorem label_threat_correct :
    (∀ (metrics z : List (String × ℝ)) (if_score : ℝ),
      label_threat metrics z if_score = labelSpec metrics z if_score) ∧
    label_threat [("oil_slick_score", 0.1)]
      [("tide_level_m", 3.0), ("wave_height_m", 3.0), ("wind_speed_ms", 2.5)] 0.2
      = ["possible_flooding"] :=
  ⟨label_threat_eq_labelSpec, labeler_scenario_flooding⟩

/-- Severity derivation shared by `backend/main.py` (`ingest`) and
`simulation/simulate.py` (`build_alert`): start at "low", upgrade to
"high" when the labels contain "possible_oil_spill" or
"possible_flooding", else to "medium" when they contain
"possible_algal_bloom". -/
def severityOf (labels : List String) : String :=
  if "possible_oil_spill" ∈ labels ∨ "possible_flooding" ∈ labels then "high"
  else if "possible_algal_bloom" ∈ labels then "medium"
  else "low"

/-- Severity as worded by the specification (C7): "high" if the label
set contains possible_oil_spill or possible_flooding; else "medium" if
it contains possible_algal_bloom; else "low". -/
def severitySpec (labels : List String) : String :=
  if "possible_oil_spill" ∈ labels ∨ "possible_flooding" ∈ labels then "high"
  else if "possible_algal_bloom" ∈ labels then "medium"
  else "low"

theorem labeler_scenario_bloom :
    label_threat [] [("chlorophyll_mg_m3", 3.5), ("turbidity_NTU", 2.5)] 0
      = ["possible_algal_bloom"] := by
  have h1 : getD [("chlorophyll_mg_m3", 3.5), ("turbidity_NTU", 2.5)]
      "tide_level_m" = 0 := rfl
  have h2 : getD [("chlorophyll_mg_m3", 3.5), ("turbidity_NTU", 2.5)]
      "wave_height_m" = 0 := rfl
  have h3 : getD [("chlorophyll_mg_m3", 3.5), ("turbidity_NTU", 2.5)]
      "wind_speed_ms" = 0 := rfl
  have h4 : getD [("chlorophyll_mg_m3", 3.5), ("turbidity_NTU", 2.5)]
      "chlorophyll_mg_m3" = 3.5 := rfl
  have h5 : getD [("chlorophyll_mg_m3", 3.5), ("turbidity_NTU", 2.5)]
      "turbidity_NTU" = 2.5 := rfl
  have h6 : getD [("chlorophyll_mg_m3", 3.5), ("turbidity_NTU", 2.5)]
      "oil_slick_score" = 0 := rfl
  have h7 : getD ([] : List (String × ℝ)) "oil_slick_score" = 0 := rfl
  rw [label_threat, h1, h2, h3, h4, h5, h6, h7]
  rw [abs_of_nonneg (by norm_num : (0:ℝ) ≤ 3.5),
      abs_of_nonneg (by norm_num : (0:ℝ) ≤ 2.5),
      abs_of_nonneg (by norm_num : (0:ℝ) ≤ (0:ℝ))]
  norm_num

/-- C7: for every label list produced by the labeler, the derived
severity is exactly "high" if the list contains possible_oil_spill or
possible_flooding, else "medium" if it contains possible_algal_bloom,
else "low"; and the concrete scenario chlorophyll z=3.5, turbidity
z=2.5, everything else 0 yields labels ["possible_algal_bloom"] with
severity "medium". -/
theorem severity_correct :
    (∀ (metrics z : List (String × ℝ)) (if_score : ℝ),
      severityOf (label_threat metrics z if_score)
        = severitySpec (label_threat metrics z if_score)) ∧
    label_threat [] [("chlorophyll_mg_m3", 3.5), ("turbidity_NTU", 2.5)] 0
      = ["possible_algal_bloom"] ∧
    severityOf (label_threat [] [("chlorophyll_mg_m3", 3.5), ("turbidity_NTU", 2.5)] 0)
      = "medium" := by
  refine ⟨fun _ _ _ => rfl, labeler_scenario_bloom, ?_⟩
  rw [labeler_scenario_bloom]
  decide

/-- Modelled from the spec: the ensemble scorer of `IFDetector` in src
only delegates to the library `IsolationForest.score_samples`, whose
tree structures and path-length computation are not part of this
repository; §4.2 of the specification defines them from first
principles. An isolation tree is a binary random partition: each
internal node holds a feature index and a split value, each leaf the
remaining subset size and the depth reached. -/
inductive ITree where
  | leaf (size : ℕ) (depth : ℕ)
  | node (feature : ℕ) (split : ℝ) (left : ITree) (right : ITree)

/-- Modelled from the spec: the fitted ensemble is an ordered
collection of trees together with the fit-time subsample size used for
the `c(n)` normalization constant. -/
structure Ensemble where
  trees : List ITree
  subsampleSize : ℕ

/-- Modelled from the spec: the size-correction term
`c(k) = 2·(ln(k−1) + 0.5772156649) − 2·(k−1)/k` for `k > 1`, else 0. -/
noncomputable def cfactor (k : ℕ) : ℝ :=
  if 1 < k then
    2 * (Real.log ((k : ℝ) - 1) + 0.5772156649) - 2 * ((k : ℝ) - 1) / (k : ℝ)
  else 0

/-- Modelled from the spec: traverse a tree from the root following
the feature value of the sample against the split of each node until a leaf,
accumulating the number of edges traversed plus the size correction
`c(leaf_size)` at the leaf. -/
noncomputable def pathLength (x : ℕ → ℝ) : ITree → ℝ
  | .leaf size _ => cfactor size
  | .node f s l r => (if x f < s then pathLength x l else pathLength x r) + 1

/-- Modelled from the spec: `h(x)`, the average corrected path length
over all trees of the ensemble. -/
noncomputable def avgPathLength (E : Ensemble) (x : ℕ → ℝ) : ℝ :=
  (E.trees.map (pathLength x)).sum / (E.trees.length : ℝ)

/-- Modelled from the spec: the normalized outlier estimate
`s(x) = 2 ^ (−h(x)/c(n))` with `n` the fit-time subsample size. -/
noncomputable def sEstimate (E : Ensemble) (x : ℕ → ℝ) : ℝ :=
  (2 : ℝ) ^ (-(avgPathLength E x) / cfactor E.subsampleSize)

/-- Clamp of a value to an interval, `np.clip(v, lo, hi)`. -/
noncomputable def npClip (v lo hi : ℝ) : ℝ := min hi (max v lo)

/-- Vectorization of a metrics mapping in `METRIC_ORDER` order,
`[[metrics.get(m, 0.0) for m in METRIC_ORDER]]`. -/
def vecOf (metrics : List (String × ℝ)) : ℕ → ℝ :=
  fun i => getD metrics (METRIC_ORDER.getD i "")

/-- Score function `IFDetector.score(metrics)`: 0.0 when no model is fit
(`self.clf is None`), else `np.clip((0.5 − s)/2, 0.0, 1.0)` where `s`
is the normalized outlier estimate of the ensemble for the vectorized
metrics (the estimate itself is modelled from the spec, see
`sEstimate`). -/
noncomputable def IFDetector.score (clf : Option Ensemble)
    (metrics : List (String × ℝ)) : ℝ :=
  match clf with
  | none => 0
  | some E => npClip ((0.5 - sEstimate E (vecOf metrics)) / 2) 0 1

theorem cfactor_pos (k : ℕ) (hk : 2 ≤ k) : 0 < cfactor k := by
  unfold cfactor
  rw [if_pos (by omega)]
  rcases Nat.lt_or_ge k 3 with h3 | h3
  · have hk2 : k = 2 := by omega
    subst hk2
    norm_num [Real.log_one]
  · have hcast : (3 : ℝ) ≤ (k : ℝ) := by exact_mod_cast h3
    have hgt : Real.log 2 ≤ Real.log ((k : ℝ) - 1) :=
      (Real.log_le_log_iff (by norm_num) (by linarith)).mpr (by linarith)
    have hlog2 : (0.6931471803 : ℝ) < Real.log 2 := Real.log_two_gt_d9
    have hfrac : 2 * ((k : ℝ) - 1) / (k : ℝ) < 2 := by
      rw [div_lt_iff₀ (by linarith)]
      linarith
    linarith

theorem cfactor_nonneg (k : ℕ) : 0 ≤ cfactor k := by
  rcases Nat.lt_or_ge k 2 with h | h
  · unfold cfactor
    rw [if_neg (by omega)]
  · exact (cfactor_pos k h).le

theorem pathLength_nonneg (x : ℕ → ℝ) (tr : ITree) : 0 ≤ pathLength x tr := by
  induction tr with
  | leaf size depth => exact cfactor_nonneg size
  | node f s l r ihl ihr =>
    unfold pathLength
    split <;> linarith

theorem avgPathLength_nonneg (E : Ensemble) (x : ℕ → ℝ) :
    0 ≤ avgPathLength E x := by
  unfold avgPathLength
  refine div_nonneg (List.sum_nonneg ?_) (Nat.cast_nonneg _)
  intro y hy
  obtain ⟨tr, _, rfl⟩ := List.mem_map.mp hy
  exact pathLength_nonneg x tr

/-- C2: for every fitted ensemble (subsample size at least 2) and every
input, the user-facing score is exactly `clip((0.5 − s)/2, 0, 1)` with
`s = 2^(−h(x)/c(n))` the normalized outlier estimate, and `s` lies
in (0, 1]. -/
theorem ensemble_score_formula (E : Ensemble) (metrics : List (String × ℝ))
    (hn : 2 ≤ E.subsampleSize) :
    IFDetector.score (some E) metrics
      = npClip ((0.5 - sEstimate E (vecOf metrics)) / 2) 0 1 ∧
    0 < sEstimate E (vecOf metrics) ∧ sEstimate E (vecOf metrics) ≤ 1 := by
  refine ⟨rfl, Real.rpow_pos_of_pos (by norm_num) _, ?_⟩
  apply Real.rpow_le_one_of_one_le_of_nonpos (by norm_num)
  have hc : 0 < cfactor E.subsampleSize := cfactor_pos _ hn
  have hh : 0 ≤ avgPathLength E (vecOf metrics) := avgPathLength_nonneg _ _
  have : 0 ≤ avgPathLength E (vecOf metrics) / cfactor E.subsampleSize :=
    div_nonneg hh hc.le
  rw [neg_div]
  linarith

/-- Witness for C2 at a concrete ensemble: one leaf tree, subsample
size 2, empty metrics. -/
theorem ensemble_score_formula_witness :
    0 < sEstimate ⟨[ITree.leaf 0 0], 2⟩ (vecOf []) ∧
    sEstimate ⟨[ITree.leaf 0 0], 2⟩ (vecOf []) ≤ 1 :=
  (ensemble_score_formula ⟨[ITree.leaf 0 0], 2⟩ [] (by norm_num)).2

/-- C3: for every input sample the score is within [0, 1], and an
unfit ensemble (no model loaded) scores exactly 0.0 on every input. -/
theorem score_bounds :
    (∀ (clf : Option Ensemble) (metrics : List (String × ℝ)),
      0 ≤ IFDetector.score clf metrics ∧ IFDetector.score clf metrics ≤ 1) ∧
    (∀ metrics, IFDetector.score none metrics = 0) := by
  constructor
  · rintro (_ | E) metrics
    · refine ⟨le_of_eq rfl, ?_⟩
      rw [show IFDetector.score none metrics = 0 from rfl]
      norm_num
    · refine ⟨le_min (by norm_num) (le_max_right _ _), min_le_left _ _⟩
  · intro metrics
    rfl

/-- Modelled from the spec: a persisted ensemble artifact is an opaque
blob that either deserializes back to an ensemble or is corrupt (the
deserializer raises on it). The file system is abstracted as a partial
map from paths to blobs; `os.path.exists(p)` is `(fs p).isSome`. -/
inductive Blob where
  | good (E : Ensemble)
  | corrupt

/-- Deserialization `joblib.load(path)` as used by `IFDetector.load`: raises
FileNotFoundError on a missing path and an unpickling error on a
corrupt blob; errors are modelled by `Except.error`. -/
def joblib_load (fs : String → Option Blob) (path : String) :
    Except String Ensemble :=
  match fs path with
  | none => Except.error "FileNotFoundError"
  | some Blob.corrupt => Except.error "UnpicklingError"
  | some (Blob.good E) => Except.ok E

/-- Loader `IFDetector.load(path)`: `self.clf = load(path)` with no exception
handling — any load failure propagates. -/
def IFDetector.load (fs : String → Option Blob) (path : String) :
    Except String (Option Ensemble) :=
  (joblib_load fs path).map some

/-- Constructor `IFDetector.__init__(model_path)`: loads only when `model_path` is
truthy (non-None, non-empty) and the file exists; otherwise the
detector stays unfit (`clf = None`). The call to `self.load` is NOT
wrapped in any exception handler. -/
def IFDetector.init (fs : String → Option Blob) (model_path : Option String) :
    Except String (Option Ensemble) :=
  match model_path with
  | none => Except.ok none
  | some p =>
    if p ≠ "" ∧ (fs p).isSome = true then (joblib_load fs p).map some
    else Except.ok none

/-- Counterexample to C9: constructing an `IFDetector` on an existing
but corrupt artifact propagates the unpickling error instead of
degrading to the unfit state — the load failure is not caught. -/
theorem corrupt_artifact_raises :
    IFDetector.init
      (fun p => if p = "models/iforest.joblib" then some Blob.corrupt else none)
      (some "models/iforest.joblib")
      = Except.error "UnpicklingError" := rfl

/-- C9 amended: a missing artifact path at construction is skipped, so
the detector stays unfit and scores 0.0 on every input; but an
existing corrupt artifact propagates the load error (it is not
caught). -/
theorem missing_artifact_degrades (fs : String → Option Blob) (p : String)
    (hmiss : fs p = none) (metrics : List (String × ℝ)) :
    IFDetector.init fs (some p) = Except.ok none ∧
    IFDetector.score none metrics = 0 ∧
    (∀ (fs' : String → Option Blob) (p' : String), fs' p' = some Blob.corrupt →
      p' ≠ "" → IFDetector.init fs' (some p') = Except.error "UnpicklingError") := by
  refine ⟨?_, rfl, ?_⟩
  · show (if p ≠ "" ∧ (fs p).isSome = true then Except.map some (joblib_load fs p)
      else Except.ok none) = Except.ok none
    rw [if_neg]
    simp [hmiss]
  · intro fs' p' hcor hne
    show (if p' ≠ "" ∧ (fs' p').isSome = true then Except.map some (joblib_load fs' p')
      else Except.ok none) = Except.error "UnpicklingError"
    rw [if_pos ⟨hne, by simp [hcor]⟩]
    unfold joblib_load
    rw [hcor]
    rfl

/-- Witness for the amended C9 at a concrete empty file system. -/
theorem missing_artifact_degrades_witness :
    IFDetector.init (fun _ => none) (some "models/iforest.joblib")
      = Except.ok none :=
  (missing_artifact_degrades (fun _ => none) "models/iforest.joblib" rfl []).1

/-- Anomaly block of an ingest payload: `payload.anomaly` with its
`is_anomaly` flag and its `labels` list (defaulting to `[]`). -/
structure AnomalyField where
  is_anomaly : Bool
  labels : List String

/-- Detection-relevant part of the `/ingest` request payload. -/
structure IngestPayload where
  station_id : String
  metrics : List (String × ℝ)
  anomaly : Option AnomalyField

/-- Detection step of `ingest` in `backend/main.py`: when the payload
already carries a truthy `anomaly.is_anomaly`, the labels are taken
verbatim from the payload and no detection runs; otherwise the rolling
z-scores are updated, the ensemble is scored, and `label_threat`
combines them. Returns the resulting detector state and labels. -/
noncomputable def ingestLabels (dz : RollingZScoreDetector)
    (dif : Option Ensemble) (p : IngestPayload) :
    RollingZScoreDetector × List String :=
  match p.anomaly with
  | some a =>
    if a.is_anomaly then (dz, a.labels)
    else
      ((dz.update p.station_id p.metrics).1,
       label_threat p.metrics (dz.update p.station_id p.metrics).2
         (IFDetector.score dif p.metrics))
  | none =>
      ((dz.update p.station_id p.metrics).1,
       label_threat p.metrics (dz.update p.station_id p.metrics).2
         (IFDetector.score dif p.metrics))

/-- Detection fields of an emitted alert. -/
structure Alert where
  threat_type : String
  severity : String
  confidence : ℝ

/-- Alert assembly of `ingest` in `backend/main.py`: an alert is
created only for a non-empty label list, with `threat = labels[0]`,
the severity chain, and `confidence = float(det_if.score(metrics))`
(the initial 0.5 only survives when scoring raises, which the total
model cannot). -/
noncomputable def ingestAlert (dif : Option Ensemble) (p : IngestPayload)
    (labels : List String) : Option Alert :=
  if labels = [] then none
  else some { threat_type := labels.headD "",
              severity := severityOf labels,
              confidence := IFDetector.score dif p.metrics }

/-- Simulator payload fields used by `build_alert` in
`simulation/simulate.py` (`iforest` is the score stored in
`anomaly.detectors.iforest`). -/
structure SimPayload where
  timestamp : String
  station_id : String
  iforest : ℝ

/-- Alert builder `build_alert(station, ingest_payload, labels)` from
`simulation/simulate.py`: `threat_type = labels[0] if labels else
"generic_anomaly"`, the severity chain, and
`confidence = max(0.5, iforest)`. -/
noncomputable def build_alert (p : SimPayload) (labels : List String) : Alert :=
  { threat_type := labels.headD "generic_anomaly",
    severity := severityOf labels,
    confidence := max 0.5 p.iforest }

/-- C10: for every ingest payload whose anomaly field is present with
a truthy `is_anomaly`, the labels are taken verbatim from the payload
and the rolling-window detector state is returned unchanged — no
update, no z-scores. -/
theorem ingest_preflagged_frame (dz : RollingZScoreDetector)
    (dif : Option Ensemble) (p : IngestPayload) (a : AnomalyField)
    (ha : p.anomaly = some a) (htrue : a.is_anomaly = true) :
    ingestLabels dz dif p = (dz, a.labels) := by
  unfold ingestLabels
  rw [ha]
  show (if a.is_anomaly = true then (dz, a.labels)
    else ((dz.update p.station_id p.metrics).1,
      label_threat p.metrics (dz.update p.station_id p.metrics).2
        (IFDetector.score dif p.metrics))) = (dz, a.labels)
  rw [if_pos htrue]

/-- Witness for C10: a concrete pre-flagged payload passes its labels
through and leaves the fresh detector untouched. -/
theorem ingest_preflagged_frame_witness :
    ingestLabels (initDetector 60 3) none
      ⟨"S", [("tide_level_m", 9)], some ⟨true, ["preflagged"]⟩⟩
      = (initDetector 60 3, ["preflagged"]) :=
  ingest_preflagged_frame (initDetector 60 3) none
    ⟨"S", [("tide_level_m", 9)], some ⟨true, ["preflagged"]⟩⟩
    ⟨true, ["preflagged"]⟩ rfl rfl

theorem ingest_oil_labels :
    (ingestLabels (initDetector 60 3) none
      ⟨"S", [("oil_slick_score", 0.5)], none⟩).2 = ["possible_oil_spill"] := by
  unfold ingestLabels
  show label_threat [("oil_slick_score", 0.5)]
      ((initDetector 60 3).update "S" [("oil_slick_score", 0.5)]).2
      (IFDetector.score none [("oil_slick_score", 0.5)]) = ["possible_oil_spill"]
  have hs : IFDetector.score none [("oil_slick_score", 0.5)] = 0 := rfl
  have hz1 : getD ((initDetector 60 3).update "S" [("oil_slick_score", 0.5)]).2
      "tide_level_m" = 0 := rfl
  have hz2 : getD ((initDetector 60 3).update "S" [("oil_slick_score", 0.5)]).2
      "wave_height_m" = 0 := rfl
  have hz3 : getD ((initDetector 60 3).update "S" [("oil_slick_score", 0.5)]).2
      "wind_speed_ms" = 0 := rfl
  have hz4 : getD ((initDetector 60 3).update "S" [("oil_slick_score", 0.5)]).2
      "chlorophyll_mg_m3" = 0 := rfl
  have hz5 : getD ((initDetector 60 3).update "S" [("oil_slick_score", 0.5)]).2
      "turbidity_NTU" = 0 := rfl
  have hz6 : getD ((initDetector 60 3).update "S" [("oil_slick_score", 0.5)]).2
      "oil_slick_score" = 0 := rfl
  have hmet : getD [("oil_slick_score", 0.5)] "oil_slick_score" = 0.5 := rfl
  rw [label_threat, hs, hz1, hz2, hz3, hz4, hz5, hz6, hmet]
  rw [abs_of_nonneg (le_refl (0:ℝ))]
  norm_num

/-- Counterexample to C8: with no model loaded, the `/ingest` handler
of `backend/main.py` detects `possible_oil_spill` (raw score 0.5 >
0.4), emits an alert, and sets its confidence to the ensemble score
0.0 — strictly below 0.5. The backend does not floor the confidence;
0.5 is only the fallback when scoring raises. -/
theorem ingest_confidence_below_half :
    ingestAlert none ⟨"S", [("oil_slick_score", 0.5)], none⟩
        (ingestLabels (initDetector 60 3) none
          ⟨"S", [("oil_slick_score", 0.5)], none⟩).2
      = some { threat_type := "possible_oil_spill", severity := "high",
               confidence := 0 } ∧
    ¬ (0.5 ≤ (0 : ℝ)) := by
  refine ⟨?_, by norm_num⟩
  rw [ingest_oil_labels]
  unfold ingestAlert
  rw [if_neg (by simp)]
  rfl

/-- C8 amended: whenever a caller emits an alert for a non-empty label
list, the threat_type of the alert is the first label in the produced
order; in `simulate.build_alert` the confidence is
`max(0.5, iforest)` and hence at least 0.5, while in the backend
`ingest` the confidence equals the ensemble score at evaluation time
(not floored; 0.5 is only a fallback when scoring raises) and can be
below 0.5. -/
theorem alert_fields (labels : List String) (hne : labels ≠ [])
    (dif : Option Ensemble) (p : IngestPayload) (sp : SimPayload) :
    ingestAlert dif p labels
      = some { threat_type := labels.headD "",
               severity := severityOf labels,
               confidence := IFDetector.score dif p.metrics } ∧
    (build_alert sp labels).threat_type = labels.headD "generic_anomaly" ∧
    (build_alert sp labels).confidence = max 0.5 sp.iforest ∧
    0.5 ≤ (build_alert sp labels).confidence := by
  refine ⟨?_, rfl, rfl, le_max_left _ _⟩
  unfold ingestAlert
  rw [if_neg hne]

/-- Witness for the amended C8 at concrete inputs. -/
theorem alert_fields_witness :
    (build_alert ⟨"t", "S", 0⟩ ["possible_flooding"]).threat_type
      = "possible_flooding" ∧
    0.5 ≤ (build_alert ⟨"t", "S", 0⟩ ["possible_flooding"]).confidence := by
  have h := alert_fields ["possible_flooding"] (by simp) none
    ⟨"S", [], none⟩ ⟨"t", "S", 0⟩
  exact ⟨h.2.1, h.2.2.2⟩
